import Mathlib

/-!
Verification of the rotating log sink (RotateWriter) of the dy logging
library, as a shallow embedding in Lean.

Modelling conventions:
- Machine integers (Go int / int64 / time.Duration) are modelled as Int;
  Go arithmetic on these values in the sink never overflows in practice and
  the source performs no wrap-dependent operation, so plain Int is faithful.
- Time instants and durations are nanosecond counts (Go time.Duration is an
  int64 nanosecond count; time.Since t = now - t).
- The file system and OS calls are fallible; their outcomes are supplied by
  explicit environment records (OpenEnv, RotateEnv, WriteEnv, ...), one field
  per OS call the source makes.  A field of such a record is an input to the
  embedded function, mirroring the non-determinism of the OS.
- A Go method mutating its receiver through a pointer becomes a function
  returning the new state.  A Go early error return leaves the receiver as
  it was at the moment of return, so embedded functions that can fail return
  the (possibly partially updated) state together with the error.
-/

namespace Dy

/-- Go os.File handle: modelled by an identifier; none models a nil file
pointer. -/
abbrev Handle := Nat

/-- RotateWriter struct from the source (mutex omitted: the embedding models
the serialized behaviour inside the critical section). -/
structure RotateWriter where
  filename : String
  file : Option Handle
  size : Int
  maxSize : Int
  maxBackups : Int
  backupInterval : Int
  lastRotate : Int
  compress : Bool
deriving DecidableEq

/-- RotateOption: a function updating the writer, as in the source. -/
abbrev RotateOption := RotateWriter → RotateWriter

/-- WithMaxSize sets maxSize to int64(megabytes) * 1024 * 1024. -/
def WithMaxSize (megabytes : Int) : RotateOption :=
  fun rw => { rw with maxSize := megabytes * 1024 * 1024 }

/-- WithMaxBackups sets the maximum number of backup files to keep. -/
def WithMaxBackups (count : Int) : RotateOption :=
  fun rw => { rw with maxBackups := count }

/-- WithBackupInterval sets the time interval for regular rotation. -/
def WithBackupInterval (duration : Int) : RotateOption :=
  fun rw => { rw with backupInterval := duration }

/-- WithCompress enables or disables backup compression. -/
def WithCompress (compress : Bool) : RotateOption :=
  fun rw => { rw with compress := compress }

/-- Outcomes of the OS calls made by openFile: os.MkdirAll, os.OpenFile and
file.Stat.  statSize is the on-disk length Stat reports; handle is the handle
the OS hands out on a successful open. -/
structure OpenEnv where
  mkdirOk : Bool
  openOk : Bool
  statOk : Bool
  statSize : Int
  handle : Handle
deriving DecidableEq

/-- Errors openFile can return (each wraps the underlying OS error in the
source). -/
inductive OpenErr where
  | mkdirFailed
  | openFailed
  | statFailed
deriving DecidableEq

/-- openFile from the source: ensure the directory exists, open the file in
append mode, stat it; only on full success are rw.file and rw.size assigned
(on a stat failure the source closes the fresh handle and leaves rw
untouched). -/
def openFile (rw : RotateWriter) (env : OpenEnv) : Except OpenErr RotateWriter :=
  if env.mkdirOk = false then .error .mkdirFailed
  else if env.openOk = false then .error .openFailed
  else if env.statOk = false then .error .statFailed
  else .ok { rw with file := some env.handle, size := env.statSize }

/-- NewRotateWriter from the source: build the writer with the default
configuration (100MB max size, 5 backups, 24h interval, compression on,
lastRotate = now), apply the options, then eagerly open the log file,
returning the open error when that fails.  24 * time.Hour is
24 * 3600 * 1000000000 nanoseconds. -/
def NewRotateWriter (filename : String) (options : List RotateOption)
    (now : Int) (env : OpenEnv) : Except OpenErr RotateWriter :=
  let rw : RotateWriter :=
    { filename := filename
      file := none
      size := 0
      maxSize := 100 * 1024 * 1024
      maxBackups := 5
      backupInterval := 24 * 3600 * 1000000000
      lastRotate := now
      compress := true }
  let rw := options.foldl (fun r o => o r) rw
  openFile rw env

/-- Error returned when os.File.Close fails. -/
inductive CloseErr where
  | closeFailed
deriving DecidableEq

/-- Close from the source: if no file is open return nil, otherwise close the
handle, clear it (regardless of the close error), and return that error. -/
def Close (rw : RotateWriter) (closeOk : Bool) :
    Option CloseErr × RotateWriter :=
  match rw.file with
  | none => (none, rw)
  | some _ =>
      ((if closeOk then none else some .closeFailed), { rw with file := none })

/-- Outcome of the os.Rename call in rotate: success, failure satisfying
os.IsNotExist, or any other failure. -/
inductive RenameRes where
  | renamed
  | notExist
  | otherErr
deriving DecidableEq

/-- Outcomes of the OS calls made by rotate: the close of the current handle,
the rename to the backup name, and the reopen; now is the time stamped into
lastRotate. -/
structure RotateEnv where
  closeOk : Bool
  renameRes : RenameRes
  openEnv : OpenEnv
  now : Int
deriving DecidableEq

/-- Errors rotate can return. -/
inductive RotateErr where
  | closeFailed
  | renameFailed
  | openErr (e : OpenErr)
deriving DecidableEq

/-- Result of one rotate call: the error (if any), the writer state at
return, and whether a background compression task resp. a background cleanup
task was dispatched with go. -/
structure RotateOutcome where
  err : Option RotateErr
  rw : RotateWriter
  compressDispatched : Bool
  cleanupDispatched : Bool
deriving DecidableEq

/-- Tail of rotate after the rename decision: reopen the log file, set
lastRotate, dispatch cleanup when maxBackups > 0.  compressDispatched records
whether the compression goroutine was started by the caller. -/
def rotateReopen (rw : RotateWriter) (env : RotateEnv)
    (compressDispatched : Bool) : RotateOutcome :=
  match openFile rw env.openEnv with
  | .error e => ⟨some (.openErr e), rw, compressDispatched, false⟩
  | .ok rw2 =>
      let rw3 := { rw2 with lastRotate := env.now }
      ⟨none, rw3, compressDispatched, decide (rw3.maxBackups > 0)⟩

/-- Middle of rotate, after the current handle was dealt with: rename the
active file to the timestamped backup name.  A rename failure that is not
IsNotExist aborts; IsNotExist continues without dispatching compression; on
success compression is dispatched iff rw.compress. -/
def rotateRename (rw : RotateWriter) (env : RotateEnv) : RotateOutcome :=
  match env.renameRes with
  | .otherErr => ⟨some .renameFailed, rw, false, false⟩
  | .notExist => rotateReopen rw env false
  | .renamed => rotateReopen rw env rw.compress

/-- rotate from the source.  Note the close-failure path: the source returns
the error before the line rw.file = nil executes, so the stale handle remains
in rw.file. -/
def rotate (rw : RotateWriter) (env : RotateEnv) : RotateOutcome :=
  match rw.file with
  | some _ =>
      if env.closeOk = false then ⟨some .closeFailed, rw, false, false⟩
      else rotateRename { rw with file := none } env
  | none => rotateRename rw env

/-- ForceRotate from the source: take the lock and rotate unconditionally. -/
def ForceRotate (rw : RotateWriter) (env : RotateEnv) : RotateOutcome :=
  rotate rw env

/-- The rotation check of Write, verbatim from the source:
(rw.maxSize > 0 && rw.size+int64(len(p)) > rw.maxSize) ||
(rw.backupInterval > 0 && time.Since(rw.lastRotate) > rw.backupInterval),
with time.Since(t) = now - t. -/
def rotationNeeded (rw : RotateWriter) (pLen : Int) (now : Int) : Bool :=
  (decide (rw.maxSize > 0) && decide (rw.size + pLen > rw.maxSize)) ||
  (decide (rw.backupInterval > 0) && decide (now - rw.lastRotate > rw.backupInterval))

/-- Errors Write can return. -/
inductive WriteErr where
  | openErr (e : OpenErr)
  | rotateErr (e : RotateErr)
  | fileWriteErr
deriving DecidableEq

/-- Outcomes of the OS calls made by Write: the lazy reopen (when rw.file is
nil), the rotation's OS calls (when the check fires), the underlying
file.Write (written = the byte count n it reports, writeOk = whether it
returned a nil error), and the clock reading used by time.Since. -/
structure WriteEnv where
  openEnv : OpenEnv
  rotEnv : RotateEnv
  written : Int
  writeOk : Bool
  now : Int
deriving DecidableEq

/-- Result of one Write call: the returned (n, err), the writer state at
return, and whether the rotation procedure ran before the bytes were
written. -/
structure WriteOutcome where
  n : Int
  err : Option WriteErr
  rw : RotateWriter
  rotated : Bool
deriving DecidableEq

/-- Final step of Write: n, err = rw.file.Write(p); rw.size += int64(n);
return n, err. -/
def writeToFile (rw : RotateWriter) (env : WriteEnv) (rotated : Bool) :
    WriteOutcome :=
  ⟨env.written,
   (if env.writeOk then none else some .fileWriteErr),
   { rw with size := rw.size + env.written },
   rotated⟩

/-- Body of Write once a file is open: the rotation check and the file
write. -/
def writeAfterOpen (rw : RotateWriter) (pLen : Int) (env : WriteEnv) :
    WriteOutcome :=
  if rotationNeeded rw pLen env.now then
    let out := rotate rw env.rotEnv
    match out.err with
    | some e => ⟨0, some (.rotateErr e), out.rw, true⟩
    | none => writeToFile out.rw env true
  else
    writeToFile rw env false

/-- Write from the source: under the lock, lazily reopen when rw.file is nil;
evaluate the rotation check on the pending length; rotate when it fires,
propagating a rotation error as (0, err); finally write p to the file and add
the reported count to rw.size. -/
def Write (rw : RotateWriter) (pLen : Int) (env : WriteEnv) : WriteOutcome :=
  match rw.file with
  | none =>
      match openFile rw env.openEnv with
      | .error e => ⟨0, some (.openErr e), rw, false⟩
      | .ok rw1 => writeAfterOpen rw1 pLen env
  | some _ => writeAfterOpen rw pLen env

/-- Outcomes of the OS calls made by compressFile, one per stage: os.Open of
the original, os.Create of the .gz target, io.Copy into the gzip writer, the
explicit gzipWriter.Close() (the finalize), and os.Remove of the original. -/
structure CompressEnv where
  openOk : Bool
  createOk : Bool
  copyOk : Bool
  gzipCloseOk : Bool
  removeOk : Bool
deriving DecidableEq

/-- Errors compressFile can return. -/
inductive CompressErr where
  | openFailed
  | createFailed
  | copyFailed
  | removeFailed
deriving DecidableEq

/-- Result of compressFile: the returned error and whether the original
(uncompressed) file was removed from disk. -/
structure CompressOutcome where
  err : Option CompressErr
  originalRemoved : Bool
deriving DecidableEq

/-- compressFile from the source: open the original, create the compressed
file, stream-copy through the gzip writer, then close the writers and remove
the original.  The source checks the errors of the open, create and copy
stages and returns early without removing; the return value of the explicit
gzipWriter.Close() call (the finalize stage) is discarded, so its failure
does not stop the removal of the original. -/
def compressFile (env : CompressEnv) : CompressOutcome :=
  if env.openOk = false then ⟨some .openFailed, false⟩
  else if env.createOk = false then ⟨some .createFailed, false⟩
  else if env.copyOk = false then ⟨some .copyFailed, false⟩
  else if env.removeOk then ⟨none, true⟩
  else ⟨some .removeFailed, false⟩

/-- A backup file on disk for the sink's base path, as the cleanup pass sees
it: its name, its modification time, and whether its name ends in .gz.  All
files in a cleanup input are assumed to match the glob
base.????????-??????* (the source builds the candidate list from that
pattern). -/
structure BFile where
  name : String
  modTime : Int
  isGz : Bool
deriving DecidableEq

/-- os.Remove in the cleanup loop: deleting a path that is present succeeds,
deleting an absent path fails; the source logs the failure and continues, so
the file set is simply filtered. -/
def removeByName (fs : List BFile) (name : String) : List BFile :=
  fs.filter (fun f => f.name ≠ name)

/-- cleanupOldBackups from the source, acting on the set fs of backup files
on disk for the base path.  The first glob base.????????-??????* matches
every backup file, compressed or not (the trailing * also matches the .gz
suffix); the second glob base.????????-??????*.gz matches the compressed
ones again and the source appends those matches to the first list, so each
.gz file occurs twice in matches.  If len(matches) <= maxBackups nothing is
done; otherwise matches is sorted by modification time ascending and the
first len(matches) - maxBackups entries are removed, each failure logged and
skipped.  Returns the files remaining on disk. -/
def cleanupOldBackups (maxBackups : Int) (fs : List BFile) : List BFile :=
  let entries := fs ++ fs.filter (fun f => f.isGz)
  if (entries.length : Int) ≤ maxBackups then fs
  else
    let sorted := entries.insertionSort (fun a b => a.modTime ≤ b.modTime)
    let excess := sorted.take (entries.length - maxBackups.toNat)
    excess.foldl (fun s f => removeByName s f.name) fs

/-- Environment hypotheses under which every OS call involved in one Write
(including a rotation, should it fire) succeeds, the fresh file opened after
a rotation is empty, and the underlying file write reports the full pending
length written: the normal operating conditions of the sink. -/
def successEnv (env : WriteEnv) (pLen : Int) : Prop :=
  env.rotEnv.closeOk = true ∧ env.rotEnv.renameRes ≠ RenameRes.otherErr ∧
  env.rotEnv.openEnv.mkdirOk = true ∧ env.rotEnv.openEnv.openOk = true ∧
  env.rotEnv.openEnv.statOk = true ∧ env.rotEnv.openEnv.statSize = 0 ∧
  env.written = pLen ∧ env.writeOk = true

instance (env : WriteEnv) (pLen : Int) : Decidable (successEnv env pLen) := by
  unfold successEnv
  infer_instance

/-- Total of the byte counts the underlying file writes reported over a list
of (pending length, environment) write calls. -/
def sumWritten (ws : List (Int × WriteEnv)) : Int :=
  (ws.map (fun w => w.2.written)).sum

/-- State reached after a list of (pending length, environment) Write
calls. -/
def writeSeq (rw : RotateWriter) (ws : List (Int × WriteEnv)) : RotateWriter :=
  ws.foldl (fun r w => (Write r w.1 w.2).rw) rw

/-- Checks that along the given list of Write calls, starting from rw, no
call fires the rotation check (the writer keeps appending to the same
handle). -/
def noRotateRun (rw : RotateWriter) : List (Int × WriteEnv) → Bool
  | [] => true
  | w :: rest =>
      !(rotationNeeded rw w.1 w.2.now) &&
        noRotateRun (Write rw w.1 w.2).rw rest

/-- Concrete OS environment where every call succeeds, a freshly opened file
is empty and gets handle 1. -/
def sampleOpenEnv : OpenEnv := ⟨true, true, true, 0, 1⟩

/-- Concrete rotation environment where every OS call succeeds and the rename
finds the active file in place. -/
def sampleRotEnv : RotateEnv := ⟨true, .renamed, sampleOpenEnv, 5⟩

/-- Concrete writer: open handle 0, 10 bytes in the active file, 100-byte
size limit, 3 backups, time-based rotation disabled. -/
def sampleWriter : RotateWriter := ⟨"app.log", some 0, 10, 100, 3, 0, 0, true⟩

/-- Concrete write environment for a 95-byte write that succeeds in full. -/
def sampleWriteEnv : WriteEnv := ⟨sampleOpenEnv, sampleRotEnv, 95, true, 5⟩

/-- Concrete rotation environment whose close call fails. -/
def closeFailEnv : RotateEnv := ⟨false, .renamed, sampleOpenEnv, 5⟩

/-- Concrete compression environment where open, create, copy and remove
succeed but the finalizing gzipWriter.Close() call fails. -/
def finalizeFailEnv : CompressEnv := ⟨true, true, true, false, true⟩

/-- Two compressed backup files on disk, the first one older. -/
def twoGzBackups : List BFile :=
  [⟨"app.log.20240101-000000.gz", 1, true⟩,
   ⟨"app.log.20240102-000000.gz", 2, true⟩]

/-- Concrete two-call run of short writes (50 then 20 bytes) that never
fires the rotation check against sampleWriter. -/
def sampleRun : List (Int × WriteEnv) :=
  [(50, ⟨sampleOpenEnv, sampleRotEnv, 50, true, 1⟩),
   (20, ⟨sampleOpenEnv, sampleRotEnv, 20, true, 2⟩)]

/-- Concrete rotation environment where the rename finds no file at the base
path (os.IsNotExist) and every other OS call succeeds. -/
def notExistEnv : RotateEnv := ⟨true, .notExist, sampleOpenEnv, 7⟩

/-- Concrete OS environment whose stat call fails. -/
def failStatEnv : OpenEnv := ⟨true, true, false, 0, 1⟩

/-- The writer NewRotateWriter builds for path app.log at time 0 under
sampleOpenEnv, with no options: all defaults, file opened with handle 1. -/
def sampleNewWriter : RotateWriter :=
  ⟨"app.log", some 1, 0, 100 * 1024 * 1024, 5, 24 * 3600 * 1000000000, 0,
   true⟩

/-- On a writer with an open file, Write skips the lazy reopen and goes
straight to the rotation check and file write. -/
theorem write_open_file (rw : RotateWriter) (pLen : Int) (env : WriteEnv)
    (hdl : Handle) (hfile : rw.file = some hdl) :
    Write rw pLen env = writeAfterOpen rw pLen env := by
  simp [Write, hfile]

/-- The rotation procedure runs during Write exactly when the source's
rotation check fires. -/
theorem writeAfterOpen_rotated (rw : RotateWriter) (pLen : Int)
    (env : WriteEnv) :
    (writeAfterOpen rw pLen env).rotated = rotationNeeded rw pLen env.now := by
  unfold writeAfterOpen
  by_cases hc : rotationNeeded rw pLen env.now
  · cases h : (rotate rw env.rotEnv).err <;> simp [hc, h, writeToFile]
  · simp [hc, writeToFile]

/-- When every OS call succeeds, rotate returns no error, installs the fresh
handle with the statted size, stamps lastRotate, dispatches compression
exactly when the rename succeeded and compression is enabled, and dispatches
cleanup exactly when maxBackups is positive. -/
theorem rotate_success (rw : RotateWriter) (env : RotateEnv)
    (hclose : env.closeOk = true) (hren : env.renameRes ≠ RenameRes.otherErr)
    (hmk : env.openEnv.mkdirOk = true) (hop : env.openEnv.openOk = true)
    (hst : env.openEnv.statOk = true) :
    rotate rw env = ⟨none,
      { rw with file := some env.openEnv.handle,
                size := env.openEnv.statSize,
                lastRotate := env.now },
      (if env.renameRes = RenameRes.renamed then rw.compress else false),
      decide (rw.maxBackups > 0)⟩ := by
  cases hf : rw.file <;>
    cases hr : env.renameRes <;>
      simp_all [rotate, rotateRename, rotateReopen, openFile]

/-- A successful openFile installs the handle the OS handed out and takes the
size from the stat of the on-disk file. -/
theorem openFile_ok (rw rw2 : RotateWriter) (env : OpenEnv)
    (h : openFile rw env = Except.ok rw2) :
    rw2 = { rw with file := some env.handle, size := env.statSize } := by
  unfold openFile at h
  split at h <;> simp_all
  split at h <;> simp_all
  split at h <;> simp_all

/-- openFile fails whenever one of its three OS calls fails. -/
theorem openFile_fails (rw : RotateWriter) (env : OpenEnv)
    (h : env.mkdirOk = false ∨ env.openOk = false ∨ env.statOk = false) :
    ∃ e, openFile rw env = Except.error e := by
  unfold openFile
  by_cases h1 : env.mkdirOk = false
  · exact ⟨.mkdirFailed, by simp [h1]⟩
  · by_cases h2 : env.openOk = false
    · exact ⟨.openFailed, by simp [h1, h2]⟩
    · have h3 : env.statOk = false := by tauto
      exact ⟨.statFailed, by simp [h1, h2, h3]⟩

/-- C1: For every call to Write(p) on a RotateWriter with an open file, a
rotation is performed before the bytes are written if and only if
(maxSize > 0 and size + len(p) > maxSize) or (backupInterval > 0 and
now - lastRotate exceeds backupInterval); in particular maxSize = 0 disables
size-based rotation and backupInterval = 0 disables time-based rotation. -/
theorem write_rotation_iff (rw : RotateWriter) (pLen : Int) (env : WriteEnv)
    (hfile : rw.file.isSome) :
    ((Write rw pLen env).rotated =
      ((decide (rw.maxSize > 0) && decide (rw.size + pLen > rw.maxSize)) ||
       (decide (rw.backupInterval > 0) &&
        decide (env.now - rw.lastRotate > rw.backupInterval)))) ∧
    (rw.maxSize = 0 →
      (Write rw pLen env).rotated =
        (decide (rw.backupInterval > 0) &&
         decide (env.now - rw.lastRotate > rw.backupInterval))) ∧
    (rw.backupInterval = 0 →
      (Write rw pLen env).rotated =
        (decide (rw.maxSize > 0) && decide (rw.size + pLen > rw.maxSize))) := by
  obtain ⟨hdl, hh⟩ := Option.isSome_iff_exists.mp hfile
  rw [write_open_file rw pLen env hdl hh]
  have hbase := writeAfterOpen_rotated rw pLen env
  refine ⟨by rw [hbase]; rfl, ?_, ?_⟩
  · intro hz
    rw [hbase]
    simp [rotationNeeded, hz]
  · intro hz
    rw [hbase]
    simp [rotationNeeded, hz]

/-- Witness for C1: the 95-byte write on the concrete sample writer (10 bytes
in a 100-byte-limit file) triggers the size-based rotation. -/
theorem write_rotation_iff_witness :
    (Write sampleWriter 95 sampleWriteEnv).rotated =
      ((decide (sampleWriter.maxSize > 0) &&
        decide (sampleWriter.size + 95 > sampleWriter.maxSize)) ||
       (decide (sampleWriter.backupInterval > 0) &&
        decide (sampleWriteEnv.now - sampleWriter.lastRotate >
          sampleWriter.backupInterval))) :=
  (write_rotation_iff sampleWriter 95 sampleWriteEnv (by decide)).1

/-- C6: Close() is idempotent: calling Close() on a RotateWriter whose file
handle is already absent returns no error, and after any Close() returns,
the handle is cleared. -/
theorem close_idempotent (rw : RotateWriter) (ok1 ok2 : Bool) :
    (rw.file = none → Close rw ok1 = (none, rw)) ∧
    ((Close rw ok1).2.file = none) ∧
    ((Close (Close rw ok1).2 ok2).1 = none) := by
  cases h : rw.file <;> simp [Close, h]

/-- Witness for C6: closing the sample writer twice; after the first Close
the handle is cleared, and the second Close is a no-op returning no error. -/
theorem close_idempotent_witness :
    ((Close sampleWriter false).2.file = none) ∧
    (Close (Close sampleWriter false).2 true =
      (none, (Close sampleWriter false).2)) :=
  ⟨(close_idempotent sampleWriter false true).2.1,
   (close_idempotent (Close sampleWriter false).2 true true).1
     (close_idempotent sampleWriter false true).2.1⟩

/-- C9: WithMaxSize interprets its integer argument as megabytes, setting the
internal rotation threshold to megabytes * 1024 * 1024 bytes; an argument of
zero or a negative value disables size-based rotation entirely (the rotation
check requires maxSize > 0). -/
theorem with_max_size_semantics (rw : RotateWriter) (m : Int) :
    (WithMaxSize m rw).maxSize = m * 1024 * 1024 ∧
    (m ≤ 0 → ∀ pLen now, rotationNeeded (WithMaxSize m rw) pLen now =
      (decide (rw.backupInterval > 0) &&
       decide (now - rw.lastRotate > rw.backupInterval))) := by
  refine ⟨rfl, ?_⟩
  intro hm pLen now
  have hns : ¬((m * 1024 * 1024 : Int) > 0) := by omega
  simp [rotationNeeded, WithMaxSize, hns]

/-- Witness for C9: a zero megabyte limit yields threshold 0 and the sample
writer (time-based rotation disabled) then never rotates on a huge write. -/
theorem with_max_size_semantics_witness :
    (WithMaxSize 0 sampleWriter).maxSize = 0 * 1024 * 1024 ∧
    rotationNeeded (WithMaxSize 0 sampleWriter) 1000000 99 =
      (decide (sampleWriter.backupInterval > 0) &&
       decide (99 - sampleWriter.lastRotate > sampleWriter.backupInterval)) :=
  ⟨(with_max_size_semantics sampleWriter 0).1,
   (with_max_size_semantics sampleWriter 0).2 (by decide) 1000000 99⟩

/-- Counterexample to C4 as stated: on the sample writer (open handle 0),
when the close of the current handle fails during rotation, the close error
is returned, but the sink is NOT left without an open file handle - rw.file
still holds the old handle, because the source returns before the line
clearing it runs.  Consequently the next write will not attempt to
reopen. -/
theorem rotate_close_failure_counterexample :
    (rotate sampleWriter closeFailEnv).err = some .closeFailed ∧
    ¬((rotate sampleWriter closeFailEnv).rw.file = none) := by
  decide

/-- C4 (amended): if closing the currently open file handle fails during the
rotation procedure, the rotation aborts and the close error is returned to
the caller, and the writer state is left entirely unchanged - in particular
the stale handle remains in rw.file, so a subsequent write will not attempt
to reopen the file. -/
theorem rotate_close_failure_amended (rw : RotateWriter) (env : RotateEnv)
    (hdl : Handle) (hfile : rw.file = some hdl) (hclose : env.closeOk = false) :
    (rotate rw env).err = some .closeFailed ∧
    (rotate rw env).rw = rw ∧
    (rotate rw env).rw.file = some hdl ∧
    (rotate rw env).compressDispatched = false := by
  simp [rotate, hfile, hclose]

/-- Witness for C4 (amended): the sample writer under the failing-close
environment. -/
theorem rotate_close_failure_amended_witness :
    (rotate sampleWriter closeFailEnv).err = some .closeFailed ∧
    (rotate sampleWriter closeFailEnv).rw = sampleWriter ∧
    (rotate sampleWriter closeFailEnv).rw.file = some 0 ∧
    (rotate sampleWriter closeFailEnv).compressDispatched = false :=
  rotate_close_failure_amended sampleWriter closeFailEnv 0 rfl rfl

/-- Counterexample to C3 as stated: in the environment where the open,
create, copy and remove stages succeed but the finalizing
gzipWriter.Close() call fails, compressFile nevertheless removes the
original file and reports no error - the finalize stage's failure does not
abort, because the source discards the return value of the explicit
gzipWriter.Close() call. -/
theorem compress_finalize_counterexample :
    finalizeFailEnv.gzipCloseOk = false ∧
    (compressFile finalizeFailEnv).originalRemoved = true ∧
    (compressFile finalizeFailEnv).err = none := by
  decide

/-- C3 (amended): a compressFile call that fails at opening the source file,
creating the compressed file, or the stream copy aborts without removing the
original, so an uncompressed backup remains on disk; the original is removed
exactly when open, create, copy and the removal itself succeed - the result
of finalizing the compression encoder is ignored and plays no role. -/
theorem compress_abort_amended (env : CompressEnv)
    (h : env.openOk = false ∨ env.createOk = false ∨ env.copyOk = false) :
    (compressFile env).originalRemoved = false ∧
    ¬((compressFile env).err = none) ∧
    (∀ e : CompressEnv, (compressFile e).originalRemoved = true ↔
      (e.openOk = true ∧ e.createOk = true ∧ e.copyOk = true ∧
       e.removeOk = true)) := by
  refine ⟨?_, ?_, ?_⟩
  · unfold compressFile
    by_cases h1 : env.openOk = false <;> by_cases h2 : env.createOk = false <;>
      by_cases h3 : env.copyOk = false <;> by_cases h4 : env.removeOk <;>
        simp_all
  · unfold compressFile
    by_cases h1 : env.openOk = false <;> by_cases h2 : env.createOk = false <;>
      by_cases h3 : env.copyOk = false <;> by_cases h4 : env.removeOk <;>
        simp_all
  · intro e
    unfold compressFile
    by_cases h1 : e.openOk = false <;> by_cases h2 : e.createOk = false <;>
      by_cases h3 : e.copyOk = false <;> by_cases h4 : e.removeOk <;>
        simp_all
-- note: the three stage-failure cases leave the original in place, and the
-- characterization shows the finalize outcome is absent from the condition.

/-- Witness for C3 (amended): a failing copy stage leaves the original in
place and returns an error. -/
theorem compress_abort_amended_witness :
    (compressFile ⟨true, true, false, true, true⟩).originalRemoved = false ∧
    ¬((compressFile ⟨true, true, false, true, true⟩).err = none) ∧
    (∀ e : CompressEnv, (compressFile e).originalRemoved = true ↔
      (e.openOk = true ∧ e.createOk = true ∧ e.copyOk = true ∧
       e.removeOk = true)) :=
  compress_abort_amended ⟨true, true, false, true, true⟩ (by decide)

/-- C2 (code bug): with maxBackups = 3 and exactly two compressed backups on
disk - no excess at all - cleanupOldBackups still removes the older backup
and keeps only the newer one, because the first glob base.????????-??????*
already matches .gz names and the second glob appends them a second time, so
the candidate list double-counts every compressed backup (4 entries for 2
files, exceeding 3).  The claim (and the function's own comments) say
nothing is removed when the file count is within the bound. -/
theorem cleanup_double_count_eval :
    (twoGzBackups.length : Int) ≤ 3 ∧
    cleanupOldBackups 3 twoGzBackups =
      [⟨"app.log.20240102-000000.gz", 2, true⟩] := by
  decide

/-- C5: For every Write on a writer with maxSize > 0 under normally
succeeding OS calls, the active file's byte count never exceeds maxSize by
more than the length of the single write that triggered the rotation:
whenever size + len(p) > maxSize before a write, rotation occurs first and
the pending write lands in a fresh (empty) file. -/
theorem write_size_bound (rw : RotateWriter) (pLen : Int) (env : WriteEnv)
    (hfile : rw.file.isSome) (hmax : 0 < rw.maxSize) (hp : 0 ≤ pLen)
    (hs : successEnv env pLen) :
    (Write rw pLen env).rw.size ≤ rw.maxSize + pLen ∧
    (rw.maxSize < rw.size + pLen →
      (Write rw pLen env).rotated = true ∧
      (Write rw pLen env).rw.size = pLen) := by
  obtain ⟨hdl, hh⟩ := Option.isSome_iff_exists.mp hfile
  obtain ⟨h1, h2, h3, h4, h5, h6, h7, h8⟩ := hs
  rw [write_open_file rw pLen env hdl hh]
  by_cases hc : rotationNeeded rw pLen env.now
  · have hrot := rotate_success rw env.rotEnv h1 h2 h3 h4 h5
    simp [writeAfterOpen, hc, hrot, writeToFile, h6, h7]
    omega
  · have hcf : rotationNeeded rw pLen env.now = false := by simpa using hc
    have hle : rw.size + pLen ≤ rw.maxSize := by
      by_contra hgt
      push_neg at hgt
      have htrue : rotationNeeded rw pLen env.now = true := by
        unfold rotationNeeded
        simp [hmax, hgt]
      simp [htrue] at hcf
    simp [writeAfterOpen, hcf, writeToFile, h7]
    omega

/-- Witness for C5: the 95-byte write on the 10-byte sample file with limit
100 rotates and lands in a fresh file of exactly 95 bytes. -/
theorem write_size_bound_witness :
    (Write sampleWriter 95 sampleWriteEnv).rw.size ≤
      sampleWriter.maxSize + 95 ∧
    (sampleWriter.maxSize < sampleWriter.size + 95 →
      (Write sampleWriter 95 sampleWriteEnv).rotated = true ∧
      (Write sampleWriter 95 sampleWriteEnv).rw.size = 95) :=
  write_size_bound sampleWriter 95 sampleWriteEnv (by decide) (by decide)
    (by decide) (by decide)

/-- A Write that triggers no rotation on an open file only adds the reported
byte count to size, leaving every other field (the handle included)
unchanged. -/
theorem write_no_rotation (rw : RotateWriter) (pLen : Int) (env : WriteEnv)
    (hdl : Handle) (hfile : rw.file = some hdl)
    (hc : rotationNeeded rw pLen env.now = false) :
    (Write rw pLen env).rw = { rw with size := rw.size + env.written } := by
  rw [write_open_file rw pLen env hdl hfile]
  simp [writeAfterOpen, hc, writeToFile]

/-- C7: outside the critical section, size equals the byte length appended to
the current handle since it was opened: a successful openFile takes size from
the stat of the on-disk file (not assumed zero), a non-rotating Write adds to
size exactly the count the underlying file write reports, and hence along any
run of non-rotating writes size equals the size at open plus the total of
the reported counts. -/
theorem size_tracks_appended :
    (∀ (rw rw2 : RotateWriter) (env : OpenEnv),
      openFile rw env = Except.ok rw2 →
        rw2.size = env.statSize ∧ rw2.file = some env.handle) ∧
    (∀ (rw : RotateWriter) (pLen : Int) (env : WriteEnv) (hdl : Handle),
      rw.file = some hdl → rotationNeeded rw pLen env.now = false →
        (Write rw pLen env).rw.size = rw.size + env.written ∧
        (Write rw pLen env).rw.file = some hdl) ∧
    (∀ (rw : RotateWriter) (ws : List (Int × WriteEnv)) (hdl : Handle),
      rw.file = some hdl → noRotateRun rw ws = true →
        (writeSeq rw ws).size = rw.size + sumWritten ws) := by
  refine ⟨?_, ?_, ?_⟩
  · intro rw rw2 env h
    rw [openFile_ok rw rw2 env h]
    exact ⟨rfl, rfl⟩
  · intro rw pLen env hdl hfile hc
    rw [write_no_rotation rw pLen env hdl hfile hc]
    exact ⟨rfl, hfile⟩
  · intro rw ws
    induction ws generalizing rw with
    | nil =>
        intro hdl hfile _
        simp [writeSeq, sumWritten]
    | cons w rest ih =>
        intro hdl hfile hrun
        unfold noRotateRun at hrun
        rw [Bool.and_eq_true] at hrun
        obtain ⟨hnr, hrest⟩ := hrun
        have hc : rotationNeeded rw w.1 w.2.now = false := by
          simpa using hnr
        have hstep := write_no_rotation rw w.1 w.2 hdl hfile hc
        have hseq : writeSeq rw (w :: rest) =
            writeSeq (Write rw w.1 w.2).rw rest := rfl
        rw [hstep] at hrest
        have hend := ih { rw with size := rw.size + w.2.written } hdl hfile
          hrest
        rw [hseq, hstep, hend]
        simp [sumWritten]
        ring

/-- Witness for C7: the two-call sample run (50 then 20 bytes) on the sample
writer ends with size 10 + 70. -/
theorem size_tracks_appended_witness :
    (writeSeq sampleWriter sampleRun).size =
      sampleWriter.size + sumWritten sampleRun :=
  size_tracks_appended.2.2 sampleWriter sampleRun 0 rfl (by decide)

/-- C8: NewRotateWriter with no options builds a writer with
maxSize = 100 * 1024 * 1024 bytes, maxBackups = 5, a 24-hour backupInterval
and compression enabled; it eagerly creates the parent directory and opens
the log file (so a successfully constructed writer starts with an open
handle) and returns the error when any of those OS calls fails. -/
theorem new_rotate_writer_defaults (fn : String) (now : Int) (env : OpenEnv) :
    (∀ rw2 : RotateWriter, NewRotateWriter fn [] now env = Except.ok rw2 →
      rw2.maxSize = 100 * 1024 * 1024 ∧ rw2.maxBackups = 5 ∧
      rw2.backupInterval = 24 * 3600 * 1000000000 ∧ rw2.compress = true ∧
      rw2.filename = fn ∧ rw2.file = some env.handle) ∧
    ((env.mkdirOk = false ∨ env.openOk = false ∨ env.statOk = false) →
      ∃ e, NewRotateWriter fn [] now env = Except.error e) := by
  constructor
  · intro rw2 h
    have h' : openFile
        { filename := fn, file := none, size := 0,
          maxSize := 100 * 1024 * 1024, maxBackups := 5,
          backupInterval := 24 * 3600 * 1000000000, lastRotate := now,
          compress := true } env = Except.ok rw2 := h
    rw [openFile_ok _ rw2 env h']
    exact ⟨rfl, rfl, rfl, rfl, rfl, rfl⟩
  · intro hbad
    obtain ⟨e, he⟩ := openFile_fails
      { filename := fn, file := none, size := 0,
        maxSize := 100 * 1024 * 1024, maxBackups := 5,
        backupInterval := 24 * 3600 * 1000000000, lastRotate := now,
        compress := true } env hbad
    exact ⟨e, he⟩

/-- Witness for C8: constructing at path app.log under the all-succeeding
environment yields the default writer with handle 1 open; under a failing
stat the construction returns an error. -/
theorem new_rotate_writer_defaults_witness :
    (sampleNewWriter.maxSize = 100 * 1024 * 1024 ∧
     sampleNewWriter.maxBackups = 5 ∧
     sampleNewWriter.backupInterval = 24 * 3600 * 1000000000 ∧
     sampleNewWriter.compress = true ∧
     sampleNewWriter.filename = "app.log" ∧
     sampleNewWriter.file = some sampleOpenEnv.handle) ∧
    (∃ e, NewRotateWriter "app.log" [] 0 failStatEnv = Except.error e) :=
  ⟨(new_rotate_writer_defaults "app.log" 0 sampleOpenEnv).1 sampleNewWriter
     rfl,
   (new_rotate_writer_defaults "app.log" 0 failStatEnv).2
     (Or.inr (Or.inr rfl))⟩

/-- The compression-dispatch flag of the rotation tail is exactly the flag
its caller passed in, whatever the reopen does. -/
theorem rotateReopen_compress (rw : RotateWriter) (env : RotateEnv)
    (b : Bool) : (rotateReopen rw env b).compressDispatched = b := by
  unfold rotateReopen
  cases h : openFile rw env.openEnv <;> simp [h]

/-- The rename step dispatches no compression unless the rename succeeded. -/
theorem rotateRename_compress (rw : RotateWriter) (env : RotateEnv)
    (hr : env.renameRes ≠ RenameRes.renamed) :
    (rotateRename rw env).compressDispatched = false := by
  unfold rotateRename
  cases hrr : env.renameRes <;> simp_all [rotateReopen_compress]

/-- rotate dispatches no compression unless the rename succeeded. -/
theorem rotate_compress_needs_rename (rw : RotateWriter) (env : RotateEnv)
    (hr : env.renameRes ≠ RenameRes.renamed) :
    (rotate rw env).compressDispatched = false := by
  unfold rotate
  cases hf : rw.file with
  | none => simpa using rotateRename_compress rw env hr
  | some hdl =>
      by_cases hc : env.closeOk = false
      · simp [hc]
      · simp [hc, rotateRename_compress _ env hr]

/-- C10: a ForceRotate made when no file exists at the base path (the rename
fails with IsNotExist) returns no error, a fresh active file is opened,
lastRotate is advanced to the current time, and no compression task is
dispatched; in general rotate dispatches compression only when the rename
actually succeeded. -/
theorem force_rotate_missing_file (rw : RotateWriter) (env : RotateEnv)
    (hclose : env.closeOk = true) (hren : env.renameRes = RenameRes.notExist)
    (hmk : env.openEnv.mkdirOk = true) (hop : env.openEnv.openOk = true)
    (hst : env.openEnv.statOk = true) :
    (ForceRotate rw env).err = none ∧
    (ForceRotate rw env).rw.file = some env.openEnv.handle ∧
    (ForceRotate rw env).rw.lastRotate = env.now ∧
    (ForceRotate rw env).compressDispatched = false ∧
    (∀ (rw' : RotateWriter) (env' : RotateEnv),
      (rotate rw' env').compressDispatched = true →
        env'.renameRes = RenameRes.renamed) := by
  have hsucc := rotate_success rw env hclose (by simp [hren]) hmk hop hst
  refine ⟨?_, ?_, ?_, ?_, ?_⟩
  · simp [ForceRotate, hsucc]
  · simp [ForceRotate, hsucc]
  · simp [ForceRotate, hsucc]
  · simp [ForceRotate, hsucc, hren]
  · intro rw' env' h
    by_contra hne
    rw [rotate_compress_needs_rename rw' env' hne] at h
    exact Bool.false_ne_true h

/-- Witness for C10: forcing a rotation of the sample writer when the base
path is absent succeeds benignly without dispatching compression. -/
theorem force_rotate_missing_file_witness :
    (ForceRotate sampleWriter notExistEnv).err = none ∧
    (ForceRotate sampleWriter notExistEnv).rw.file =
      some notExistEnv.openEnv.handle ∧
    (ForceRotate sampleWriter notExistEnv).rw.lastRotate = notExistEnv.now ∧
    (ForceRotate sampleWriter notExistEnv).compressDispatched = false ∧
    (∀ (rw' : RotateWriter) (env' : RotateEnv),
      (rotate rw' env').compressDispatched = true →
        env'.renameRes = RenameRes.renamed) :=
  force_rotate_missing_file sampleWriter notExistEnv rfl rfl rfl rfl rfl

end Dy
